import Mathlib

/-!
Shallow embedding of the Roomba-Kart controller (controller.py,
controller_functions.py, controller_constants.py) and proofs about the
per-tick behaviour of its main loop.

Python floats are modelled as exact rationals; Python ints as ℤ.  The
script mixes the two (its `velocity` variable starts as the float `0.0`
and is sometimes reassigned an int), and `bytearray` construction cares
about the distinction, so numeric values that reach the wire are
modelled by `PyNum`, which records whether a value is an int or a float.
Serial traffic and blocking sleeps are recorded as a trace of `Event`s;
uncaught Python exceptions (NameError, IndexError, TypeError) are
modelled with `Except String`.
-/

namespace RoombaKart

/-- Python `int()` applied to a float: truncation toward zero. -/
def pyTrunc (q : ℚ) : ℤ := if 0 ≤ q then ⌊q⌋ else ⌈q⌉

/-- A Python numeric value, remembering whether it is an int or a float.
The distinction matters because `bytearray` accepts ints in [0, 256)
but raises TypeError on floats. -/
inductive PyNum where
  | int (i : ℤ)
  | float (q : ℚ)
deriving DecidableEq, Repr

/-- Python floor division `a // n` for positive int `n`: int // int is an
int (floor division), float // int is a float with integral value. -/
def pyNumFloorDiv (a : PyNum) (n : ℤ) : PyNum :=
  match a with
  | PyNum.int i => PyNum.int (Int.fdiv i n)
  | PyNum.float q => PyNum.float ((⌊q / (n : ℚ)⌋ : ℤ) : ℚ)

/-- Python modulo `a % n` for positive int `n`: int % int is an int
(result has the divisor's sign, i.e. Lean's `Int.emod` for positive n),
float % int is a float. -/
def pyNumMod (a : PyNum) (n : ℤ) : PyNum :=
  match a with
  | PyNum.int i => PyNum.int (i % n)
  | PyNum.float q => PyNum.float (q - (n : ℚ) * (⌊q / (n : ℚ)⌋ : ℤ))

/-- An observable effect on the serial channel or the clock:
a write of a byte list, a blocking read of `n` bytes, or a blocking
`time.sleep` of `t` seconds. -/
inductive Event where
  | write (bs : List Nat)
  | read (n : Nat)
  | sleep (t : ℚ)
deriving DecidableEq, Repr

/-! Constants from controller_constants.py. -/

/-- controller_constants.py: `FULL_MODE = bytearray([128, 132])`. -/
def FULL_MODE : List Nat := [128, 132]

/-- controller_constants.py: `DRIVE = [137]` (drive command opcode). -/
def DRIVE : List Nat := [137]

/-- controller_constants.py: `STOP = bytearray([137, 0, 0, 0, 0])`. -/
def STOP : List Nat := [137, 0, 0, 0, 0]

/-- controller_constants.py: `POLL_BUMPERS_AND_DROPS = bytearray([142, 7])`. -/
def POLL_BUMPERS_AND_DROPS : List Nat := [142, 7]

/-- controller_constants.py: `MAX_VELOCITY_NO_ITEMS = 300` (mm/s). -/
def MAX_VELOCITY_NO_ITEMS : ℤ := 300

/-- controller_constants.py: `MAX_VELOCITY_W_SHROOM = 500` (mm/s). -/
def MAX_VELOCITY_W_SHROOM : ℤ := 500

/-- controller_constants.py: `MAX_VELOCITY_W_STAR = 425` (mm/s). -/
def MAX_VELOCITY_W_STAR : ℤ := 425

/-- controller_constants.py: `MUSHROOM_DURATION = 1.5` (seconds). -/
def MUSHROOM_DURATION : ℚ := 3 / 2

/-- controller_constants.py: `STAR_DURATION = 6.0` (seconds). -/
def STAR_DURATION : ℚ := 6

/-- controller_constants.py: `WOBBLE_DURATION = 1.2` (seconds). -/
def WOBBLE_DURATION : ℚ := 6 / 5

/-- controller_constants.py: `MIN_RADIUS = -1700` (mm, right turn). -/
def MIN_RADIUS : ℤ := -1700

/-- controller_constants.py: `MAX_RADIUS = 1700` (mm, left turn). -/
def MAX_RADIUS : ℤ := 1700

/-- controller_constants.py: `THRESHOLD = 0.07`. -/
def THRESHOLD : ℚ := 7 / 100

/-- The two item kinds; controller_constants.py stores them as the
strings 'mushroom' and 'star'. -/
inductive Item where
  | mushroom
  | star
deriving DecidableEq, Repr

/-- controller_constants.py: `ITEMS = ['mushroom', 'star']`. -/
def ITEMS : List Item := [Item.mushroom, Item.star]

/-! Functions from controller_functions.py. -/

/-- controller_functions.py lines 42-52:
`return int((trigger_value + 1) / 2 * given_max_velocity)`. -/
def apply_forward_velocity (given_max_velocity : ℤ) (trigger_value : ℚ) : ℤ :=
  pyTrunc ((trigger_value + 1) / 2 * (given_max_velocity : ℚ))

/-- controller_functions.py lines 55-65:
`return -(int((trigger_value + 1) / 2 * given_max_velocity))`. -/
def apply_backward_velocity (given_max_velocity : ℤ) (trigger_value : ℚ) : ℤ :=
  -(pyTrunc ((trigger_value + 1) / 2 * (given_max_velocity : ℚ)))

/-- The int byte-pair split `[(v // 256) % 256] + [v % 256]` used for the
radius bytes at controller_functions.py line 92 (and, through `PyNum`,
for the velocity bytes at controller.py line 256).  Python `//` on ints
is floor division and `%` gives a result in [0, 256). -/
def byte_pair (v : ℤ) : List ℤ := [(Int.fdiv v 256) % 256, v % 256]

/-- controller_functions.py lines 68-93, `apply_turning_radius`:
the `stick_x_pos == 0.0` test selects the straight-ahead sentinel
`[128, 0]`; otherwise the radius is `int(min_rad * (1 - stick + thr))`
for a rightward stick and `int(max_rad * (1 + stick + thr))` for a
leftward stick, split into bytes by `byte_pair`. -/
def apply_turning_radius (stick_x_pos given_threshold : ℚ)
    (min_rad max_rad : ℤ) : List ℤ :=
  if stick_x_pos = 0 then [128, 0]
  else if 0 < stick_x_pos then
    byte_pair (pyTrunc ((min_rad : ℚ) * (1 - stick_x_pos + given_threshold)))
  else
    byte_pair (pyTrunc ((max_rad : ℚ) * (1 + stick_x_pos + given_threshold)))

/-- The wobble loop of controller_functions.py lines 35-39: three
iterations, each writing `bytearray([137, 255, 176, 0, 50])`, sleeping
`wobble_duration / 6`, writing `bytearray([137, 255, 176, 255, 205])`
and sleeping `wobble_duration / 6` again. -/
def wobbleSequence (wobble_duration : ℚ) : List Event :=
  List.flatten (List.replicate 3
    [Event.write [137, 255, 176, 0, 50],
     Event.sleep (wobble_duration / 6),
     Event.write [137, 255, 176, 255, 205],
     Event.sleep (wobble_duration / 6)])

/-- Line 30 of controller_functions.py evaluates `cc.POLL_SENSORS`, but
no name `cc` is bound in that module: the poll command is imported at
line 11 as the bare name `POLL_SENSORS`.  Evaluating the expression
therefore raises NameError before anything is written. -/
def cc_POLL_SENSORS : Except String (List Nat) :=
  Except.error "NameError: name cc is not defined"

/-- controller_functions.py lines 14-39, `detect_front_collision`:
resolve `cc.POLL_SENSORS` (which raises NameError, see
`cc_POLL_SENSORS`); were it to resolve, write it, read one byte
(`bumperRead` is what the device would return; an empty read makes the
`[0]` index raise IndexError), mask the two bumper bits, and run the
wobble loop when a bumper is depressed and the invincibility item is
not in use. -/
def detect_front_collision (bumperRead : List Nat)
    (used_invincibility_item : Bool) (wobble_duration : ℚ) :
    List Event × Except String Unit :=
  match cc_POLL_SENSORS with
  | Except.error e => ([], Except.error e)
  | Except.ok cmd =>
    match bumperRead.head? with
    | none => ([Event.write cmd, Event.read 1],
               Except.error "IndexError: index out of range")
    | some b =>
      if b &&& 3 ≠ 0 ∧ used_invincibility_item = false then
        ([Event.write cmd, Event.read 1] ++ wobbleSequence wobble_duration,
         Except.ok ())
      else
        ([Event.write cmd, Event.read 1], Except.ok ())

/-! The main loop of controller.py (lines 147-265), one iteration of the
inner `for controller in controllers.values()` body, split into the
blocks marked by the source's section comments. -/

/-- The item-related state threaded through loop iterations
(controller.py lines 115-122; `time_item_used` is first assigned on
item use and is modelled with initial value 0). -/
structure ItemState where
  has_mushroom : Bool
  has_star : Bool
  used_mushroom : Bool
  used_star : Bool
  elapsed_time : ℚ
  time_item_used : ℚ
deriving DecidableEq, Repr

/-- The controller axes and button polled during one tick
(controller.py lines 159, 167, 168, 181). -/
structure Inputs where
  lstick : ℚ
  rt : ℚ
  lt : ℚ
  x_button : Bool
deriving DecidableEq, Repr

/-- The external inputs of one tick that do not come from the
controller: the bytes the device would return to the two `read(1)`
calls, the result of `random.choice(cc.ITEMS)`, and `time.time()`. -/
structure Env where
  bumperRead : List Nat
  itemRead : List Nat
  generated_item : Item
  now : ℚ
deriving DecidableEq, Repr

/-- controller.py lines 161-163: the deadzone, treating a stick value of
magnitude below `THRESHOLD` as exactly centered. -/
def steer_deadzone (lstick_horiz_pos : ℚ) : ℚ :=
  if |lstick_horiz_pos| < THRESHOLD then 0 else lstick_horiz_pos

/-- controller.py line 174: `right_trigger_value + 1.0 > cc.THRESHOLD`. -/
def driving_forward (right_trigger_value : ℚ) : Bool :=
  decide (right_trigger_value + 1 > THRESHOLD)

/-- controller.py lines 174-177: backward only when the forward branch
was not taken and `left_trigger_value + 1.0 > cc.THRESHOLD`. -/
def driving_backward (right_trigger_value left_trigger_value : ℚ) : Bool :=
  !driving_forward right_trigger_value
    && decide (left_trigger_value + 1 > THRESHOLD)

/-- controller.py lines 193-202: `has_item = has_mushroom or has_star`;
on a wheel drop, draw an item and grant it only when `has_item` is
false.  The `used_mushroom`/`used_star` flags play no part here. -/
def itemGeneration (st : ItemState) (wheel_dropped : Bool)
    (generated_item : Item) : ItemState :=
  let has_item := st.has_mushroom || st.has_star
  if wheel_dropped = true then
    if generated_item = Item.mushroom ∧ has_item = false then
      { st with has_mushroom := true }
    else if generated_item = Item.star ∧ has_item = false then
      { st with has_star := true }
    else st
  else st

/-- controller.py lines 204-213: pressing the item button while holding
an item moves it from held to used and stamps `time_item_used`. -/
def itemUsage (st : ItemState) (used_item : Bool) (now : ℚ) : ItemState :=
  if st.has_mushroom = true ∧ used_item = true then
    { st with has_mushroom := false, used_mushroom := true,
              time_item_used := now }
  else if st.has_star = true ∧ used_item = true then
    { st with has_star := false, used_star := true, time_item_used := now }
  else st

/-- controller.py lines 216-252 (Item Effects and Duration): `velocity`
starts as the float `0.0`; the if/elif chain may replace it with an int
and updates `elapsed_time`/`used_mushroom`/`used_star` exactly as the
source does.  Returns the final `velocity` together with the updated
state. -/
def itemEffects (st : ItemState) (df db : Bool) (rt lt now : ℚ) :
    PyNum × ItemState :=
  if st.used_mushroom = true ∨ st.used_star = true then
    if st.used_mushroom = true ∧ st.elapsed_time < MUSHROOM_DURATION then
      (PyNum.int MAX_VELOCITY_W_SHROOM,
       { st with elapsed_time := now - st.time_item_used })
    else if st.used_mushroom = true ∧ MUSHROOM_DURATION < st.elapsed_time then
      (PyNum.float 0, { st with used_mushroom := false })
    else if st.used_star = true ∧ st.elapsed_time < STAR_DURATION then
      ((if df = true then
          PyNum.int (apply_forward_velocity MAX_VELOCITY_W_STAR rt)
        else if db = true then
          PyNum.int (apply_backward_velocity MAX_VELOCITY_W_STAR lt)
        else PyNum.float 0),
       { st with elapsed_time := now - st.time_item_used })
    else if st.used_star = true ∧ STAR_DURATION < st.elapsed_time then
      (PyNum.float 0, { st with used_star := false })
    else (PyNum.float 0, st)
  else
    ((if df = true then
        PyNum.int (apply_forward_velocity MAX_VELOCITY_NO_ITEMS rt)
      else if db = true then
        PyNum.int (apply_backward_velocity MAX_VELOCITY_NO_ITEMS lt)
      else PyNum.float 0),
     { st with elapsed_time := 0 })

/-- controller.py line 256:
`velocity_bytes = [(velocity // 256) % 256] + [velocity % 256]`,
performed on whatever numeric type `velocity` has at that point. -/
def velocity_bytes (velocity : PyNum) : List PyNum :=
  [pyNumMod (pyNumFloorDiv velocity 256) 256, pyNumMod velocity 256]

/-- controller.py line 265: the list `cc.DRIVE + velocity_bytes +
radius_bytes` handed to `bytearray` (`DRIVE` holds the int 137; the
radius bytes coming out of `apply_turning_radius` are ints). -/
def drive_packet (vb : List PyNum) (rb : List ℤ) : List PyNum :=
  DRIVE.map (fun b => PyNum.int (b : ℤ)) ++ vb ++ rb.map PyNum.int

/-- Python `bytearray(xs)` on a list: succeeds when every element is an
int in [0, 256); a float element raises TypeError, an out-of-range int
raises ValueError. -/
def toByte : PyNum → Except String Nat
  | PyNum.int i =>
      if 0 ≤ i ∧ i < 256 then Except.ok i.toNat
      else Except.error "ValueError: bytes must be in range(0, 256)"
  | PyNum.float _ => Except.error "TypeError: an integer is required"

/-- `bytearray` over a list of `PyNum`s, failing at the first element
that is not an int in range, as Python does. -/
def bytearrayOfList : List PyNum → Except String (List Nat)
  | [] => Except.ok []
  | x :: xs =>
    match toByte x, bytearrayOfList xs with
    | Except.error e, _ => Except.error e
    | Except.ok b, Except.ok bs => Except.ok (b :: bs)
    | Except.ok _, Except.error e => Except.error e

/-- controller.py lines 157-265: the part of a tick after the wobble
check — poll sticks, triggers and buttons, write the sensor poll and
read one byte (`[0]` on an empty read raises IndexError), run item
generation, usage and effects, build the velocity and radius bytes and
write the drive command (whose `bytearray` construction may raise).
`tr0` is the event trace accumulated before this part. -/
def tickAfterCollision (tr0 : List Event) (st : ItemState) (inp : Inputs)
    (env : Env) : List Event × Except String ItemState :=
  let lstick := steer_deadzone inp.lstick
  let df := driving_forward inp.rt
  let db := driving_backward inp.rt inp.lt
  let used_item := inp.x_button
  let tr := tr0 ++ [Event.write POLL_BUMPERS_AND_DROPS, Event.read 1]
  match env.itemRead.head? with
  | none => (tr, Except.error "IndexError: index out of range")
  | some b =>
    let wheel_dropped := decide (b &&& 12 ≠ 0)
    let st1 := itemGeneration st wheel_dropped env.generated_item
    let st2 := itemUsage st1 used_item env.now
    let p := itemEffects st2 df db inp.rt inp.lt env.now
    let vb := velocity_bytes p.1
    let rb := apply_turning_radius lstick THRESHOLD MIN_RADIUS MAX_RADIUS
    match bytearrayOfList (drive_packet vb rb) with
    | Except.error e => (tr, Except.error e)
    | Except.ok packet => (tr ++ [Event.write packet], Except.ok p.2)

/-- One iteration of the per-controller body of controller.py's main
loop (lines 147-265): when wobble is enabled it first calls
`detect_front_collision` (passing `used_star` as the invincibility
flag), then runs the rest of the tick.  The result is the event trace
and either the updated item state or the uncaught exception that
aborted the iteration. -/
def tick (using_wobble : Bool) (st : ItemState) (inp : Inputs) (env : Env) :
    List Event × Except String ItemState :=
  if using_wobble = true then
    match detect_front_collision env.bumperRead st.used_star WOBBLE_DURATION with
    | (tr, Except.error e) => (tr, Except.error e)
    | (tr, Except.ok _) => tickAfterCollision tr st inp env
  else
    tickAfterCollision [] st inp env

/-- Number of sensor-poll writes in a trace. -/
def pollWrites (tr : List Event) : Nat :=
  tr.countP (fun e => decide (e = Event.write POLL_BUMPERS_AND_DROPS))

/-- Modelled from the spec: decoding of a big-endian two's-complement
16-bit byte pair back to a signed value (used to state the spec's
claims about what the radius bytes "decode back to"). -/
def decodeS16 : List ℤ → ℤ
  | [hi, lo] => if 32768 ≤ hi * 256 + lo then hi * 256 + lo - 65536
                else hi * 256 + lo
  | _ => 0

/-- Modelled from the spec: the big-endian two's-complement 16-bit
encoding of `v` described in the spec's wire-format section, to be
compared with the code's `byte_pair` formula. -/
def twosCompBE16 (v : ℤ) : List ℤ := [(v % 65536) / 256, (v % 65536) % 256]

end RoombaKart

namespace RoombaKart

/-! Helper lemmas. -/

/-- Encode-then-decode roundtrip for the code's byte-pair formula on
16-bit-representable values. -/
theorem byte_pair_decode (v : ℤ) (h1 : -32768 ≤ v) (h2 : v ≤ 32767) :
    decodeS16 (byte_pair v) = v := by
  simp only [byte_pair, decodeS16, Int.fdiv_eq_ediv _ (by norm_num : (0:ℤ) ≤ 256)]
  omega

/-- `pyTrunc` is monotone. -/
theorem pyTrunc_mono {q1 q2 : ℚ} (h : q1 ≤ q2) : pyTrunc q1 ≤ pyTrunc q2 := by
  unfold pyTrunc
  split_ifs with ha hb hb
  · exact Int.floor_mono h
  · linarith
  · calc ⌈q1⌉ ≤ 0 := by exact_mod_cast Int.ceil_le.mpr (by push_cast; linarith)
      _ ≤ ⌊q2⌋ := by exact_mod_cast Int.le_floor.mpr (by push_cast; linarith)
  · exact Int.ceil_mono h

/-- An integer lower bound survives `pyTrunc`. -/
theorem le_pyTrunc {a : ℤ} {q : ℚ} (h : (a : ℚ) ≤ q) : a ≤ pyTrunc q := by
  unfold pyTrunc
  split_ifs with h0
  · exact Int.le_floor.mpr h
  · exact_mod_cast h.trans (Int.le_ceil q)

/-- An integer upper bound survives `pyTrunc`. -/
theorem pyTrunc_le {q : ℚ} {b : ℤ} (h : q ≤ (b : ℚ)) : pyTrunc q ≤ b := by
  unfold pyTrunc
  split_ifs with h0
  · exact_mod_cast (Int.floor_le q).trans h
  · exact Int.ceil_le.mpr h

/-- `pyTrunc` is the identity on integers. -/
theorem pyTrunc_intCast (n : ℤ) : pyTrunc ((n : ℤ) : ℚ) = n := by
  unfold pyTrunc
  split_ifs <;> simp

/-- For a rightward stick value in [THRESHOLD, 1] the radius branch
taken is the `min_rad` one, and the truncated radius lies in
[-1700, -119]. -/
theorem apply_turning_radius_pos (s : ℚ) (hs1 : THRESHOLD ≤ s) (hs2 : s ≤ 1) :
    apply_turning_radius s THRESHOLD MIN_RADIUS MAX_RADIUS
      = byte_pair (pyTrunc ((MIN_RADIUS : ℚ) * (1 - s + THRESHOLD))) ∧
    -1700 ≤ pyTrunc ((MIN_RADIUS : ℚ) * (1 - s + THRESHOLD)) ∧
    pyTrunc ((MIN_RADIUS : ℚ) * (1 - s + THRESHOLD)) ≤ -119 := by
  have hthr : (7 : ℚ) / 100 ≤ s := hs1
  have hpos : 0 < s := by linarith
  refine ⟨?_, ?_, ?_⟩
  · rw [apply_turning_radius, if_neg (by linarith), if_pos hpos]
  · exact le_pyTrunc (by rw [MIN_RADIUS, THRESHOLD]; push_cast; nlinarith)
  · exact pyTrunc_le (by rw [MIN_RADIUS, THRESHOLD]; push_cast; nlinarith)

/-- For a leftward stick value `-s` with s in [THRESHOLD, 1] the radius
branch taken is the `max_rad` one, and the truncated radius lies in
[119, 1700]. -/
theorem apply_turning_radius_neg (s : ℚ) (hs1 : THRESHOLD ≤ s) (hs2 : s ≤ 1) :
    apply_turning_radius (-s) THRESHOLD MIN_RADIUS MAX_RADIUS
      = byte_pair (pyTrunc ((MAX_RADIUS : ℚ) * (1 + -s + THRESHOLD))) ∧
    119 ≤ pyTrunc ((MAX_RADIUS : ℚ) * (1 + -s + THRESHOLD)) ∧
    pyTrunc ((MAX_RADIUS : ℚ) * (1 + -s + THRESHOLD)) ≤ 1700 := by
  have hthr : (7 : ℚ) / 100 ≤ s := hs1
  have hneg : ¬(0 < -s) := by linarith
  have hne : ¬(-s = 0) := by intro h; linarith [neg_eq_zero.mp h]
  refine ⟨?_, ?_, ?_⟩
  · rw [apply_turning_radius, if_neg hne, if_neg hneg]
  · exact le_pyTrunc (by rw [MAX_RADIUS, THRESHOLD]; push_cast; nlinarith)
  · exact pyTrunc_le (by rw [MAX_RADIUS, THRESHOLD]; push_cast; nlinarith)

end RoombaKart

namespace RoombaKart

/-! Claim theorems. -/

/-- Claim C4 (code bug): with wobble enabled, a bumper hit with no
active star is claimed to trigger the wobble sequence, but
`detect_front_collision` raises NameError at its first statement
(`cc.POLL_SENSORS`, with `cc` unbound in controller_functions.py), so
on a tick with the bumper byte 1 and no star in use the call aborts
with an empty event trace and the wobble sequence never runs. -/
theorem detect_front_collision_raises_nameerror :
    detect_front_collision [1] false WOBBLE_DURATION
      = ([], Except.error "NameError: name cc is not defined") := by
  rfl

/-- Claim C8: with `WOBBLE_DURATION = 1.2` seconds, the wobble sequence
of controller_functions.py lines 35-39 issues exactly 6 drive writes —
three iterations alternating the two hand-specified reverse/turn byte
patterns `[137, 255, 176, 0, 50]` and `[137, 255, 176, 255, 205]` —
each write followed by a blocking sleep of `1.2 / 6 = 0.2` seconds. -/
theorem wobbleSequence_six_writes :
    wobbleSequence WOBBLE_DURATION =
      [Event.write [137, 255, 176, 0, 50], Event.sleep (1 / 5),
       Event.write [137, 255, 176, 255, 205], Event.sleep (1 / 5),
       Event.write [137, 255, 176, 0, 50], Event.sleep (1 / 5),
       Event.write [137, 255, 176, 255, 205], Event.sleep (1 / 5),
       Event.write [137, 255, 176, 0, 50], Event.sleep (1 / 5),
       Event.write [137, 255, 176, 255, 205], Event.sleep (1 / 5)] ∧
    (wobbleSequence WOBBLE_DURATION).countP
        (fun e => match e with | Event.write _ => true | _ => false) = 6 := by
  constructor
  · show List.flatten _ = _
    norm_num [List.replicate, WOBBLE_DURATION]
  · rfl

/-- Claim C10: a steering value inside the deadzone (`|s| < THRESHOLD`)
is forced to 0.0 by the main loop and `apply_turning_radius` maps it to
the straight-ahead sentinel pair `[128, 0]` (which is not what the
general radius formula would produce at stick value 0). -/
theorem deadzone_radius_sentinel (s : ℚ) (h : |s| < THRESHOLD) :
    apply_turning_radius (steer_deadzone s) THRESHOLD MIN_RADIUS MAX_RADIUS
        = [128, 0] ∧
    byte_pair (pyTrunc ((MIN_RADIUS : ℚ) * (1 - 0 + THRESHOLD))) ≠ [128, 0] := by
  constructor
  · rw [steer_deadzone, if_pos h, apply_turning_radius, if_pos rfl]
  · have h1 : ((MIN_RADIUS : ℚ) * (1 - 0 + THRESHOLD)) = ((-1819 : ℤ) : ℚ) := by
      rw [MIN_RADIUS, THRESHOLD]; push_cast; ring
    rw [h1, pyTrunc_intCast]
    decide

/-- Witness for `deadzone_radius_sentinel` at s = 0.05. -/
theorem deadzone_radius_sentinel_witness :
    apply_turning_radius (steer_deadzone (1 / 20)) THRESHOLD MIN_RADIUS
        MAX_RADIUS = [128, 0] ∧
    byte_pair (pyTrunc ((MIN_RADIUS : ℚ) * (1 - 0 + THRESHOLD))) ≠ [128, 0] :=
  deadzone_radius_sentinel (1 / 20)
    (by rw [THRESHOLD, abs_of_nonneg (by norm_num)]; norm_num)

end RoombaKart

namespace RoombaKart

/-- Claim C5 (counterexample): for the steering value 0.5 — positive
and above the threshold — the radius byte pair produced by
`apply_turning_radius` decodes to the negative value -969, so the sign
of the decoded radius is opposite to, not matching, the sign of the
steer value. -/
theorem radius_sign_counterexample :
    (0 : ℚ) < 1 / 2 ∧ THRESHOLD ≤ (1 / 2 : ℚ) ∧
    decodeS16 (apply_turning_radius (1 / 2) THRESHOLD MIN_RADIUS MAX_RADIUS)
      = -969 ∧
    decodeS16 (apply_turning_radius (1 / 2) THRESHOLD MIN_RADIUS MAX_RADIUS)
      < 0 := by
  have e := (apply_turning_radius_pos (1 / 2)
    (by rw [THRESHOLD]; norm_num) (by norm_num)).1
  have h1 : ((MIN_RADIUS : ℚ) * (1 - 1 / 2 + THRESHOLD)) = ((-969 : ℤ) : ℚ) := by
    rw [MIN_RADIUS, THRESHOLD]; push_cast; ring
  rw [e, h1, pyTrunc_intCast]
  refine ⟨by norm_num, by rw [THRESHOLD]; norm_num, by decide, by decide⟩

/-- Claim C5 (amended): for steering magnitudes in [THRESHOLD, 1] the
radius byte pair decodes to a value whose sign is opposite to the steer
sign (positive steer gives a negative radius, a right turn; negative
steer a positive radius), and whose magnitude is monotonically
decreasing in the steer magnitude. -/
theorem radius_sign_and_magnitude (s1 s2 : ℚ) (h1 : THRESHOLD ≤ s1)
    (h12 : s1 ≤ s2) (h2 : s2 ≤ 1) :
    (decodeS16 (apply_turning_radius s1 THRESHOLD MIN_RADIUS MAX_RADIUS) < 0 ∧
     |decodeS16 (apply_turning_radius s2 THRESHOLD MIN_RADIUS MAX_RADIUS)| ≤
       |decodeS16 (apply_turning_radius s1 THRESHOLD MIN_RADIUS MAX_RADIUS)|) ∧
    (0 < decodeS16 (apply_turning_radius (-s1) THRESHOLD MIN_RADIUS MAX_RADIUS) ∧
     |decodeS16 (apply_turning_radius (-s2) THRESHOLD MIN_RADIUS MAX_RADIUS)| ≤
       |decodeS16 (apply_turning_radius (-s1) THRESHOLD MIN_RADIUS MAX_RADIUS)|) := by
  obtain ⟨e1, lo1, hi1⟩ := apply_turning_radius_pos s1 h1 (h12.trans h2)
  obtain ⟨e2, lo2, hi2⟩ := apply_turning_radius_pos s2 (h1.trans h12) h2
  obtain ⟨f1, mo1, mhi1⟩ := apply_turning_radius_neg s1 h1 (h12.trans h2)
  obtain ⟨f2, mo2, mhi2⟩ := apply_turning_radius_neg s2 (h1.trans h12) h2
  rw [e1, e2, f1, f2,
    byte_pair_decode _ (by omega) (by omega),
    byte_pair_decode _ (by omega) (by omega),
    byte_pair_decode _ (by omega) (by omega),
    byte_pair_decode _ (by omega) (by omega)]
  have hm1 : pyTrunc ((MIN_RADIUS : ℚ) * (1 - s1 + THRESHOLD)) ≤
      pyTrunc ((MIN_RADIUS : ℚ) * (1 - s2 + THRESHOLD)) := by
    apply pyTrunc_mono
    rw [MIN_RADIUS, THRESHOLD]
    push_cast
    linarith
  have hm2 : pyTrunc ((MAX_RADIUS : ℚ) * (1 + -s2 + THRESHOLD)) ≤
      pyTrunc ((MAX_RADIUS : ℚ) * (1 + -s1 + THRESHOLD)) := by
    apply pyTrunc_mono
    rw [MAX_RADIUS, THRESHOLD]
    push_cast
    linarith
  refine ⟨⟨by omega, ?_⟩, ⟨by omega, ?_⟩⟩
  · rw [abs_of_neg (by omega), abs_of_neg (by omega)]
    omega
  · rw [abs_of_pos (by omega), abs_of_pos (by omega)]
    omega

/-- Witness for `radius_sign_and_magnitude` at s1 = 0.1, s2 = 0.5. -/
theorem radius_sign_and_magnitude_witness :
    (decodeS16 (apply_turning_radius (1 / 10) THRESHOLD MIN_RADIUS MAX_RADIUS) < 0 ∧
     |decodeS16 (apply_turning_radius (1 / 2) THRESHOLD MIN_RADIUS MAX_RADIUS)| ≤
       |decodeS16 (apply_turning_radius (1 / 10) THRESHOLD MIN_RADIUS MAX_RADIUS)|) ∧
    (0 < decodeS16 (apply_turning_radius (-(1 / 10)) THRESHOLD MIN_RADIUS MAX_RADIUS) ∧
     |decodeS16 (apply_turning_radius (-(1 / 2)) THRESHOLD MIN_RADIUS MAX_RADIUS)| ≤
       |decodeS16 (apply_turning_radius (-(1 / 10)) THRESHOLD MIN_RADIUS MAX_RADIUS)|) :=
  radius_sign_and_magnitude (1 / 10) (1 / 2)
    (by rw [THRESHOLD]; norm_num) (by norm_num) (by norm_num)

/-- Claim C6: for every signed-16-bit value the code's byte-pair formula
`[(v // 256) % 256, v % 256]` equals the big-endian two's-complement
encoding; the transmitted drive list is `[0x89, vel_hi, vel_lo, rad_hi,
rad_lo]` (0x89 = 137); and for steer 0.5 the radius is
`int(-1700 * (1 - 0.5 + 0.07)) = -969`, whose encoding is [252, 55]. -/
theorem byte_pair_is_twos_complement (v : ℤ) (a b : PyNum) (c d : ℤ)
    (h1 : -32768 ≤ v) (h2 : v ≤ 32767) :
    byte_pair v = twosCompBE16 v ∧
    drive_packet [a, b] [c, d]
      = [PyNum.int 137, a, b, PyNum.int c, PyNum.int d] ∧
    apply_turning_radius (1 / 2) THRESHOLD MIN_RADIUS MAX_RADIUS
      = byte_pair (-969) ∧
    pyTrunc ((MIN_RADIUS : ℚ) * (1 - 1 / 2 + THRESHOLD)) = -969 ∧
    byte_pair (-969) = [252, 55] ∧ twosCompBE16 (-969) = [252, 55] := by
  have hq : ((MIN_RADIUS : ℚ) * (1 - 1 / 2 + THRESHOLD)) = ((-969 : ℤ) : ℚ) := by
    rw [MIN_RADIUS, THRESHOLD]; push_cast; ring
  have e := (apply_turning_radius_pos (1 / 2)
    (by rw [THRESHOLD]; norm_num) (by norm_num)).1
  refine ⟨?_, ?_, ?_, ?_, by decide, by decide⟩
  · simp only [byte_pair, twosCompBE16,
      Int.fdiv_eq_ediv _ (by norm_num : (0:ℤ) ≤ 256), List.cons.injEq, and_true]
    constructor <;> omega
  · simp [drive_packet, DRIVE]
  · rw [e, hq, pyTrunc_intCast]
  · rw [hq, pyTrunc_intCast]

/-- Witness for `byte_pair_is_twos_complement` at v = -969 and the
concrete drive packet for velocity 300 and radius bytes [252, 55]. -/
theorem byte_pair_is_twos_complement_witness :
    byte_pair (-969) = twosCompBE16 (-969) ∧
    drive_packet [PyNum.int 1, PyNum.int 44] [252, 55]
      = [PyNum.int 137, PyNum.int 1, PyNum.int 44, PyNum.int 252, PyNum.int 55] ∧
    apply_turning_radius (1 / 2) THRESHOLD MIN_RADIUS MAX_RADIUS
      = byte_pair (-969) ∧
    pyTrunc ((MIN_RADIUS : ℚ) * (1 - 1 / 2 + THRESHOLD)) = -969 ∧
    byte_pair (-969) = [252, 55] ∧ twosCompBE16 (-969) = [252, 55] :=
  byte_pair_is_twos_complement (-969) (PyNum.int 1) (PyNum.int 44) 252 55
    (by norm_num) (by norm_num)

end RoombaKart

namespace RoombaKart

/-- Claim C1 (counterexample): on a tick whose stored elapsed time
equals MUSHROOM_DURATION exactly, with the mushroom in use and the
right trigger fully pulled, the velocity is the float 0.0 — neither the
boosted value 500 nor the base trigger-proportional value 300 — and the
mushroom is not deactivated, contradicting both the claimed boost on
the exact-threshold tick and the claimed revert to the base policy on
the first tick with elapsed ≥ duration. -/
theorem mushroom_threshold_tick_not_boosted :
    (itemEffects ⟨false, false, true, false, 3 / 2, 0⟩ true false 1 (-1) 2).1
      = PyNum.float 0 ∧
    (itemEffects ⟨false, false, true, false, 3 / 2, 0⟩ true false 1 (-1) 2).1
      ≠ PyNum.int MAX_VELOCITY_W_SHROOM ∧
    (itemEffects ⟨false, false, true, false, 3 / 2, 0⟩ true false 1 (-1) 2).1
      ≠ PyNum.int (apply_forward_velocity MAX_VELOCITY_NO_ITEMS 1) ∧
    ((itemEffects ⟨false, false, true, false, 3 / 2, 0⟩ true false 1 (-1) 2).2).used_mushroom
      = true := by
  refine ⟨?_, ?_, ?_, ?_⟩ <;>
    simp [itemEffects, MUSHROOM_DURATION, STAR_DURATION]

/-- Claim C1 (amended): with the mushroom in use and no star in use,
a tick with stored elapsed time strictly below MUSHROOM_DURATION sets
velocity to the int MAX_VELOCITY_W_SHROOM regardless of the trigger
state and keeps the mushroom active; a tick with elapsed time exactly
equal to the duration leaves velocity as the float 0.0 and the whole
state unchanged (no deactivation); a tick with elapsed time strictly
greater deactivates the mushroom but still leaves velocity as the
float 0.0 for that tick, so the base trigger-proportional policy only
resumes on the following tick. -/
theorem mushroom_effect_characterization (st : ItemState) (df db : Bool)
    (rt lt now : ℚ) (hm : st.used_mushroom = true) (hs : st.used_star = false) :
    (st.elapsed_time < MUSHROOM_DURATION →
      (itemEffects st df db rt lt now).1 = PyNum.int MAX_VELOCITY_W_SHROOM ∧
      ((itemEffects st df db rt lt now).2).used_mushroom = true) ∧
    (st.elapsed_time = MUSHROOM_DURATION →
      (itemEffects st df db rt lt now).1 = PyNum.float 0 ∧
      (itemEffects st df db rt lt now).2 = st) ∧
    (MUSHROOM_DURATION < st.elapsed_time →
      (itemEffects st df db rt lt now).1 = PyNum.float 0 ∧
      (itemEffects st df db rt lt now).2 = { st with used_mushroom := false }) := by
  refine ⟨fun h => ?_, fun h => ?_, fun h => ?_⟩
  · rw [itemEffects, if_pos (Or.inl hm), if_pos ⟨hm, h⟩]
    exact ⟨rfl, hm⟩
  · rw [itemEffects, if_pos (Or.inl hm), if_neg (by simp [h]),
      if_neg (by simp [h]), if_neg (by simp [hs]), if_neg (by simp [hs])]
    exact ⟨rfl, rfl⟩
  · rw [itemEffects, if_pos (Or.inl hm), if_neg (by rw [hm]; simp; linarith),
      if_pos ⟨hm, h⟩]
    exact ⟨rfl, rfl⟩

/-- Witness for `mushroom_effect_characterization` with the mushroom in
use, elapsed time 1 and a fully pulled right trigger. -/
theorem mushroom_effect_characterization_witness :
    ((⟨false, false, true, false, 1, 0⟩ : ItemState).elapsed_time
        < MUSHROOM_DURATION →
      (itemEffects ⟨false, false, true, false, 1, 0⟩ true false 1 (-1) 2).1
        = PyNum.int MAX_VELOCITY_W_SHROOM ∧
      ((itemEffects ⟨false, false, true, false, 1, 0⟩ true false 1 (-1) 2).2).used_mushroom
        = true) ∧
    ((⟨false, false, true, false, 1, 0⟩ : ItemState).elapsed_time
        = MUSHROOM_DURATION →
      (itemEffects ⟨false, false, true, false, 1, 0⟩ true false 1 (-1) 2).1
        = PyNum.float 0 ∧
      (itemEffects ⟨false, false, true, false, 1, 0⟩ true false 1 (-1) 2).2
        = ⟨false, false, true, false, 1, 0⟩) ∧
    (MUSHROOM_DURATION
        < (⟨false, false, true, false, 1, 0⟩ : ItemState).elapsed_time →
      (itemEffects ⟨false, false, true, false, 1, 0⟩ true false 1 (-1) 2).1
        = PyNum.float 0 ∧
      (itemEffects ⟨false, false, true, false, 1, 0⟩ true false 1 (-1) 2).2
        = { (⟨false, false, true, false, 1, 0⟩ : ItemState) with
              used_mushroom := false }) :=
  mushroom_effect_characterization ⟨false, false, true, false, 1, 0⟩
    true false 1 (-1) 2 rfl rfl

/-- Claim C2 (counterexample): with a mushroom effect currently active
(`used_mushroom = true`) but no item held, a wheel-drop event does
change the held item — the drawn star is granted — so a wheel-drop is
not a no-op while an item's effect is active. -/
theorem wheel_drop_during_active_effect_grants_item :
    itemGeneration ⟨false, false, true, false, 0, 0⟩ true Item.star
      ≠ ⟨false, false, true, false, 0, 0⟩ ∧
    (itemGeneration ⟨false, false, true, false, 0, 0⟩ true Item.star).has_star
      = true := by
  constructor
  · intro h
    have := congrArg ItemState.has_star h
    simp [itemGeneration] at this
  · simp [itemGeneration]

/-- Claim C2 (amended): a wheel-drop event changes the held item exactly
when an item is currently held by nobody — `has_mushroom` and
`has_star` both false — in which case the drawn item is granted; the
`used_mushroom`/`used_star` flags (an active effect) play no role.  In
particular repeated wheel-drop events while an item is held never
change which item is held. -/
theorem itemGeneration_characterization (st : ItemState) (wd : Bool)
    (gi : Item) :
    itemGeneration st wd gi =
      if wd = true ∧ st.has_mushroom = false ∧ st.has_star = false then
        (match gi with
         | Item.mushroom => { st with has_mushroom := true }
         | Item.star => { st with has_star := true })
      else st := by
  cases wd <;> cases gi <;>
    cases hm : st.has_mushroom <;> cases hs : st.has_star <;>
      simp_all [itemGeneration]

end RoombaKart

namespace RoombaKart

/-- Splitting `bytearray` on a cons that succeeds: the head byte
conversion succeeded and leads the packet. -/
theorem bytearrayOfList_cons_ok (x : PyNum) (xs : List PyNum)
    (packet : List Nat) (h : bytearrayOfList (x :: xs) = Except.ok packet) :
    ∃ b tail, toByte x = Except.ok b ∧ packet = b :: tail := by
  rw [bytearrayOfList] at h
  cases hx : toByte x with
  | error e => rw [hx] at h; exact Except.noConfusion h
  | ok b =>
    cases hr : bytearrayOfList xs with
    | error e => rw [hx, hr] at h; exact Except.noConfusion h
    | ok bs =>
      rw [hx, hr] at h
      refine ⟨b, bs, rfl, ?_⟩
      injection h with h2
      exact h2.symm

/-- A successfully built drive packet starts with the drive opcode
137 = 0x89. -/
theorem bytearrayOfList_drive_head (vb : List PyNum) (rb : List ℤ)
    (packet : List Nat)
    (h : bytearrayOfList (drive_packet vb rb) = Except.ok packet) :
    ∃ tail, packet = 137 :: tail := by
  have h2 : bytearrayOfList (PyNum.int ((137 : ℕ) : ℤ)
      :: (vb ++ rb.map PyNum.int)) = Except.ok packet := h
  obtain ⟨b, tail, hx, hp⟩ := bytearrayOfList_cons_ok _ _ _ h2
  norm_num [toByte] at hx
  exact ⟨tail, by rw [hp, ← hx]; rfl⟩

/-- The event trace of the post-collision part of a tick: the prefix,
then the poll write and the one-byte read, optionally followed by a
single drive write whose first byte is the drive opcode 137. -/
theorem tickAfterCollision_trace (tr0 : List Event) (st : ItemState)
    (inp : Inputs) (env : Env) :
    (tickAfterCollision tr0 st inp env).1
        = tr0 ++ [Event.write POLL_BUMPERS_AND_DROPS, Event.read 1] ∨
    ∃ tail, (tickAfterCollision tr0 st inp env).1
        = tr0 ++ [Event.write POLL_BUMPERS_AND_DROPS, Event.read 1,
                  Event.write (137 :: tail)] := by
  simp only [tickAfterCollision]
  split
  · exact Or.inl rfl
  · split
    · exact Or.inl rfl
    · rename_i packet hok
      obtain ⟨tail, ht⟩ := bytearrayOfList_drive_head _ _ _ hok
      subst ht
      exact Or.inr ⟨tail, by simp⟩

/-- A velocity that is still the float 0.0 makes the whole `bytearray`
call fail with TypeError, whatever the radius bytes are. -/
theorem bytearray_drive_float (q : ℚ) (rb : List ℤ) :
    bytearrayOfList (drive_packet (velocity_bytes (PyNum.float q)) rb)
      = Except.error "TypeError: an integer is required" := rfl

end RoombaKart

namespace RoombaKart

/-- With both trigger branches false and no mushroom boost, every branch
of the effects block leaves velocity as the float 0.0. -/
theorem itemEffects_idle_velocity (s : ItemState) (rt lt now : ℚ)
    (hsm : s.used_mushroom = false) :
    (itemEffects s false false rt lt now).1 = PyNum.float 0 := by
  rw [itemEffects]
  split_ifs with h1 h2 h3 h4 h5 <;> simp_all

/-- The post-collision tick part with a one-byte sensor read and a
velocity that stayed the float 0.0: the drive `bytearray` raises
TypeError and no drive write happens. -/
theorem tickAfterCollision_float_velocity (tr0 : List Event)
    (st : ItemState) (inp : Inputs) (br : List Nat) (b : Nat) (gi : Item)
    (now : ℚ)
    (hv : (itemEffects (itemUsage (itemGeneration st (decide ((b &&& 12) ≠ 0))
          gi) inp.x_button now) (driving_forward inp.rt)
          (driving_backward inp.rt inp.lt) inp.rt inp.lt now).1
        = PyNum.float 0) :
    tickAfterCollision tr0 st inp ⟨br, [b], gi, now⟩
      = (tr0 ++ [Event.write POLL_BUMPERS_AND_DROPS, Event.read 1],
         Except.error "TypeError: an integer is required") := by
  simp only [tickAfterCollision, List.head?]
  rw [hv, bytearray_drive_float]

end RoombaKart

namespace RoombaKart

/-- Claim C3: on a tick where neither trigger clears the threshold, the
item button is not pressed and no mushroom is in use, the velocity
variable remains the float 0.0, so the velocity byte pair consists of
floats and the drive-command `bytearray` construction raises TypeError
instead of transmitting a stop/zero-velocity drive command — the trace
ends after the sensor poll and read, with no drive write. -/
theorem idle_tick_velocity_stays_float (st : ItemState) (inp : Inputs)
    (env : Env) (b : Nat)
    (hrt : inp.rt + 1 ≤ THRESHOLD) (hlt : inp.lt + 1 ≤ THRESHOLD)
    (hx : inp.x_button = false) (hm : st.used_mushroom = false)
    (hread : env.itemRead = [b]) :
    (itemEffects (itemUsage (itemGeneration st (decide ((b &&& 12) ≠ 0))
          env.generated_item) inp.x_button env.now)
        (driving_forward inp.rt) (driving_backward inp.rt inp.lt)
        inp.rt inp.lt env.now).1 = PyNum.float 0 ∧
    tick false st inp env
      = ([Event.write POLL_BUMPERS_AND_DROPS, Event.read 1],
         Except.error "TypeError: an integer is required") := by
  have hdf : driving_forward inp.rt = false := by
    rw [driving_forward, decide_eq_false_iff_not]
    linarith
  have hdb : driving_backward inp.rt inp.lt = false := by
    rw [driving_backward, hdf]
    simp only [Bool.not_false, Bool.true_and, decide_eq_false_iff_not]
    linarith
  have hgen : (itemGeneration st (decide ((b &&& 12) ≠ 0))
      env.generated_item).used_mushroom = st.used_mushroom := by
    rw [itemGeneration]
    split_ifs <;> rfl
  have huse : (itemUsage (itemGeneration st (decide ((b &&& 12) ≠ 0))
      env.generated_item) inp.x_button env.now).used_mushroom = false := by
    rw [itemUsage]
    split_ifs with h1 h2 <;> simp_all
  have hv : (itemEffects (itemUsage (itemGeneration st
        (decide ((b &&& 12) ≠ 0)) env.generated_item) inp.x_button env.now)
      (driving_forward inp.rt) (driving_backward inp.rt inp.lt)
      inp.rt inp.lt env.now).1 = PyNum.float 0 := by
    rw [hdf, hdb]
    exact itemEffects_idle_velocity _ _ _ _ huse
  refine ⟨hv, ?_⟩
  obtain ⟨br, ir, gi, now⟩ := env
  dsimp only at hread hv
  subst hread
  have ht : tick false st inp ⟨br, [b], gi, now⟩
      = tickAfterCollision [] st inp ⟨br, [b], gi, now⟩ := rfl
  rw [ht, tickAfterCollision_float_velocity [] st inp br b gi now (by rw [hx] at hv ⊢; exact hv)]
  rfl

/-- Witness for `idle_tick_velocity_stays_float`: the program's very
first tick with both triggers at rest, the button up and a sensor byte
of 0. -/
theorem idle_tick_velocity_stays_float_witness :
    (itemEffects (itemUsage (itemGeneration ⟨false, false, false, false, 0, 0⟩
          (decide (((0 : Nat) &&& 12) ≠ 0))
          (Env.generated_item ⟨[1], [0], Item.mushroom, 0⟩))
        (Inputs.x_button ⟨0, -1, -1, false⟩)
        (Env.now ⟨[1], [0], Item.mushroom, 0⟩))
        (driving_forward (Inputs.rt ⟨0, -1, -1, false⟩))
        (driving_backward (Inputs.rt ⟨0, -1, -1, false⟩)
          (Inputs.lt ⟨0, -1, -1, false⟩))
        (Inputs.rt ⟨0, -1, -1, false⟩) (Inputs.lt ⟨0, -1, -1, false⟩)
        (Env.now ⟨[1], [0], Item.mushroom, 0⟩)).1 = PyNum.float 0 ∧
    tick false ⟨false, false, false, false, 0, 0⟩ ⟨0, -1, -1, false⟩
        ⟨[1], [0], Item.mushroom, 0⟩
      = ([Event.write POLL_BUMPERS_AND_DROPS, Event.read 1],
         Except.error "TypeError: an integer is required") :=
  idle_tick_velocity_stays_float ⟨false, false, false, false, 0, 0⟩
    ⟨0, -1, -1, false⟩ ⟨[1], [0], Item.mushroom, 0⟩ 0
    (by rw [THRESHOLD]; norm_num) (by rw [THRESHOLD]; norm_num) rfl rfl rfl

end RoombaKart

namespace RoombaKart

/-- Claim C7 (counterexample): on a wobble-enabled tick the claimed
single poll-and-read round trip does not happen at all — the call into
`detect_front_collision` raises NameError before any serial traffic,
so the tick's trace is empty and contains zero poll writes, not one. -/
theorem wobble_enabled_tick_no_poll :
    tick true ⟨false, false, false, false, 0, 0⟩ ⟨0, -1, -1, false⟩
        ⟨[1], [0], Item.mushroom, 0⟩
      = ([], Except.error "NameError: name cc is not defined") ∧
    pollWrites (tick true ⟨false, false, false, false, 0, 0⟩
        ⟨0, -1, -1, false⟩ ⟨[1], [0], Item.mushroom, 0⟩).1 = 0 :=
  ⟨rfl, rfl⟩

/-- Claim C7 (amended): with wobble disabled every tick performs exactly
one sensor poll write (the single `[142, 7]` write, paired with its
one-byte read; the only other possible write is the drive command,
which starts with the opcode 137); with wobble enabled the tick instead
aborts inside `detect_front_collision` with NameError and performs no
poll at all. -/
theorem poll_round_trips_per_tick (st : ItemState) (inp : Inputs)
    (env : Env) :
    pollWrites (tick false st inp env).1 = 1 ∧
    tick true st inp env
      = ([], Except.error "NameError: name cc is not defined") := by
  constructor
  · have ht : tick false st inp env = tickAfterCollision [] st inp env := rfl
    rw [ht]
    rcases tickAfterCollision_trace [] st inp env with h | ⟨tail, h⟩ <;>
      rw [h] <;> rfl
  · rfl

/-- Claim C9 (counterexample): when the sensor read returns no data, the
tick does not skip its remaining logic and carry on — the `[0]` index
on the empty read raises an uncaught IndexError whose `Except.error`
result escapes the tick, terminating the control loop instead of
letting the next tick poll afresh. -/
theorem empty_read_error_escapes_tick :
    tick false ⟨false, false, false, false, 0, 0⟩ ⟨0, -1, -1, false⟩
        ⟨[], [], Item.mushroom, 0⟩
      = ([Event.write POLL_BUMPERS_AND_DROPS, Event.read 1],
         Except.error "IndexError: index out of range") := rfl

/-- Claim C9 (amended): on any wobble-disabled tick whose sensor read
returns no data, the tick aborts at the read: no sensor data is applied
to item or collision logic and no drive command is written, but the
IndexError propagates out of the tick (so the loop dies rather than
attempting the next tick's poll). -/
theorem empty_read_aborts_tick (st : ItemState) (inp : Inputs) (env : Env)
    (h : env.itemRead = []) :
    tick false st inp env
      = ([Event.write POLL_BUMPERS_AND_DROPS, Event.read 1],
         Except.error "IndexError: index out of range") := by
  obtain ⟨br, ir, gi, now⟩ := env
  dsimp only at h
  subst h
  rfl

/-- Witness for `empty_read_aborts_tick` on a tick with an item held,
the stick pushed and a trigger pulled. -/
theorem empty_read_aborts_tick_witness :
    tick false ⟨true, false, false, false, 0, 0⟩ ⟨1 / 2, 1, -1, true⟩
        ⟨[3], [], Item.star, 5⟩
      = ([Event.write POLL_BUMPERS_AND_DROPS, Event.read 1],
         Except.error "IndexError: index out of range") :=
  empty_read_aborts_tick ⟨true, false, false, false, 0, 0⟩
    ⟨1 / 2, 1, -1, true⟩ ⟨[3], [], Item.star, 5⟩ rfl

end RoombaKart
